import Mathlib

/-!
# RedditAutoCrosspostBot — verification of the spec's claims

Shallow embedding of the three source files
(`phase1_handler.py`, `phase2_handler.py`, `RedditAutoCrosspostBot.py`)
of the RedditAutoCrosspostBot repository, together with proofs or
refutations of the frozen claims about them.

Remote services (the reddit client, the staging database, the repost
fallback detector, the i18n string table) are not part of the repository's
`src/` files; their responses are passed in explicitly as environment
values, and calls into them are recorded as effect values, so that each
handler becomes a pure function from its inputs and environment to the
effects it performs.
-/

namespace RACB

/-! ## Pattern detector (`phase1_handler.check_pattern`, lines 73–86)

The source compiles `subreddit_regex = re.compile(r'^(/)?r/([a-zA-Z0-9-_]+)$')`
and runs `subreddit_regex.search(comment.body)`.

Python `re` semantics embedded here:
* without `re.MULTILINE`, `^` matches only at the start of the string and
  `$` matches at the end of the string or just before a single newline that
  is the string's last character;
* inside the character class `[a-zA-Z0-9-_]` the `-` after `9` is a literal
  hyphen (verified against CPython), so the class is exactly ASCII letters,
  ASCII digits, `-` and `_`.
Since `\n` is not in the character class and the rest of the pattern is
literal, `search` with both anchors succeeds exactly when the whole string
— after discarding one optional trailing newline — is of the shape
`r/<name>` or `/r/<name>` with `<name>` a nonempty string over the class. -/

/-- One character of the class `[a-zA-Z0-9-_]` of `subreddit_regex`. -/
def isSubredditNameChar (c : Char) : Bool :=
  (('a' ≤ c && c ≤ 'z') || ('A' ≤ c && c ≤ 'Z') || ('0' ≤ c && c ≤ '9')
    || c = '-' || c = '_')

/-- The `$` anchor of `subreddit_regex`: a single newline that ends the
string may sit after the match, so it is discarded before the anchored
comparison. -/
def stripTrailingNewline : List Char → List Char
  | [] => []
  | [c] => if c = '\n' then [] else [c]
  | c :: cs => c :: stripTrailingNewline cs

/-- The anchored body of `subreddit_regex` on an exact character list:
an optional `/`, then `r/`, then the capture group `([a-zA-Z0-9-_]+)`
which must reach the end of the list. Returns the capture group. -/
def subredditRegexExact : List Char → Option (List Char)
  | '/' :: 'r' :: '/' :: rest =>
      if rest ≠ [] && rest.all isSubredditNameChar then some rest else none
  | 'r' :: '/' :: rest =>
      if rest ≠ [] && rest.all isSubredditNameChar then some rest else none
  | _ => none

/-- `phase1_handler.check_pattern` (lines 75–86): runs `subreddit_regex`
over the comment's body and returns the second capture group (the
community name) on a match, `None` otherwise. -/
def check_pattern (body : String) : Option String :=
  (subredditRegexExact (stripTrailingNewline body.data)).map
    fun name => String.mk name

example : check_pattern "r/cats" = some "cats" := by decide
example : check_pattern "/r/cats" = some "cats" := by decide
example : check_pattern "r/cats\n" = some "cats" := by decide
example : check_pattern " r/cats" = none := by decide
example : check_pattern "r/cats " = none := by decide
example : check_pattern "go to r/cats" = none := by decide
example : check_pattern "r/cats\n\n" = none := by decide
example : check_pattern "r/" = none := by decide
example : check_pattern "r/a:b" = none := by decide
example : check_pattern "r/a-b_c9" = some "a-b_c9" := by decide

/-! ## Duplicate search client
(`phase1_handler.get_posts_with_same_content`, lines 88–142)

The live part — `reddit.subreddit(subreddit).search(...)` materialised by the
list comprehension, and `repost_detector.get_reposts_in_sub` — is external to
`src/`; its behaviour for the one call under consideration is passed in as a
`SearchEnv`.  A search either yields a list of submissions or raises an
exception; the code classifies the raised exception by `e.args[0]` (the
message) and, for the redirect-to-search / 404 case, by `e.response.text`
and its JSON parse.  `json.loads` followed by `response_obj['reason']` is
modelled by `ResponseText`: a falsy text, a text that is not JSON
(`json.JSONDecodeError`, swallowed by the inner `except`), a JSON value
without a subscriptable `'reason'` field (the lookup raises, and nothing
catches a `KeyError`), or a JSON object whose `'reason'` field holds a
string. -/

/-- A submission as far as the embedded handlers inspect it. -/
structure Submission where
  permalink : String
deriving DecidableEq, Repr

/-- `e.response.text` of a caught search exception, as the code consumes it. -/
inductive ResponseText where
  /-- falsy `e.response.text` — the `if e.response.text:` guard fails. -/
  | empty : ResponseText
  /-- `json.loads` raises `json.JSONDecodeError`, which the inner
  `try`/`except` swallows with `pass`. -/
  | notJson : ResponseText
  /-- valid JSON whose top level lacks a `'reason'` string field, so
  `response_obj['reason']` raises (`KeyError`, or `TypeError` for a
  non-object) and nothing catches it. -/
  | jsonNoReason : ResponseText
  /-- valid JSON object with `response_obj['reason'] = r`. -/
  | jsonReason (r : String) : ResponseText
deriving DecidableEq, Repr

/-- The exception raised by the live search, as the code consumes it:
`error_message = e.args[0]` plus the attached response text. -/
structure SearchExn where
  error_message : String
  responseText : ResponseText
deriving DecidableEq, Repr

/-- Behaviour of the live `reddit.subreddit(subreddit).search(...)` call
for this one invocation: either the materialised list of submissions, or a
raised exception. -/
inductive SearchResponse where
  | ok (submissions : List Submission) : SearchResponse
  | exn (e : SearchExn) : SearchResponse
deriving DecidableEq, Repr

/-- Environment of one `get_posts_with_same_content` call: the live search's
behaviour and what `repost_detector.get_reposts_in_sub` would return if
called. -/
structure SearchEnv where
  response : SearchResponse
  fallback : List Submission
deriving DecidableEq, Repr

/-- Exceptions that escape the embedded functions. -/
inductive PyError where
  /-- `NameError` from evaluating an unbound name. -/
  | nameError : PyError
  /-- `response_obj['reason']` on JSON without that field. -/
  | keyError : PyError
  /-- subscripting an empty list with `[0]`. -/
  | indexError : PyError
  /-- the bare `raise` of `get_posts_with_same_content` re-raising an
  unclassified search exception. -/
  | reraised (e : SearchExn) : PyError
deriving DecidableEq, Repr

/-- The `Result` class defined inside `get_posts_with_same_content`
(lines 89–93), with its class-level defaults. -/
structure GpwscResult where
  posts_found : Bool := false
  posts : List Submission := []
  unable_to_search : Bool := false
  unable_to_search_reason : Option String := none
deriving DecidableEq, Repr

/-- `phase1_handler.get_posts_with_same_content` (lines 88–142).  The
returned `Bool` records whether `repost_detector.get_reposts_in_sub` was
called during this invocation (line 137); it is instrumentation for the
fallback-consultation claims, not a value the source computes. -/
def get_posts_with_same_content (env : SearchEnv) :
    Except PyError (GpwscResult × Bool) :=
  match env.response with
  | .exn e =>
    if e.error_message = "Redirect to /submit" then
      -- zero search results: return the default result (lines 107–108)
      .ok ({}, false)
    else if e.error_message = "Redirect to /subreddits/search"
        || e.error_message = "received 404 HTTP response" then
      match e.responseText with
      | .empty =>
          .ok ({ unable_to_search := true,
                 unable_to_search_reason := some "SUBREDDIT_DOES_NOT_EXIST" },
               false)
      | .notJson =>
          .ok ({ unable_to_search := true,
                 unable_to_search_reason := some "SUBREDDIT_DOES_NOT_EXIST" },
               false)
      | .jsonNoReason => .error .keyError
      | .jsonReason r =>
          if r = "banned" then
            .ok ({ unable_to_search := true,
                   unable_to_search_reason := some "SUBREDDIT_IS_BANNED" },
                 false)
          else
            .ok ({ unable_to_search := true,
                   unable_to_search_reason := some "SUBREDDIT_DOES_NOT_EXIST" },
                 false)
    else if e.error_message = "received 403 HTTP response" then
      .ok ({ unable_to_search := true,
             unable_to_search_reason := some "SUBREDDIT_IS_PRIVATE" },
           false)
    else
      .error (.reraised e)
  | .ok submissions =>
    if submissions.length > 0 then
      .ok ({ posts_found := true, posts := submissions }, false)
    else
      -- lines 137–142: the fallback detector is consulted here
      let prior_posts := env.fallback
      if prior_posts ≠ [] then
        .ok ({ posts_found := true, posts := prior_posts }, true)
      else
        .ok ({}, true)

/-! ## Phase-1 pipeline (`phase1_handler.handle_incoming_comment`, lines 15–54)

A comment is embedded by the fields the handler reads.  `consts.SUB_BLACKLIST`
lives in `consts.py`, which is not among the repository's `src/` files, so the
blacklist is a parameter (the spec only calls it a static, case-insensitively
matched list of community names).  Replies (`comment.reply` via the
`reply_to_*` helpers, lines 144–165) and the staging insert
(`racb_db.add_comment`, line 54) are recorded as `Effect` values in the order
the source performs them. -/

/-- The fields of a praw comment that `phase1_handler` reads. -/
structure Comment where
  body : String
  /-- `comment.distinguished`: `None` or a string such as `'moderator'`. -/
  distinguished : Option String
  parent_id : String
  link_id : String
  /-- `comment.subreddit.display_name`. -/
  subredditDisplayName : String
  /-- `comment.submission.title`. -/
  submissionTitle : String
deriving DecidableEq, Repr

/-- `phase1_handler.is_mod_post` (lines 57–58). -/
def is_mod_post (comment : Comment) : Bool :=
  comment.distinguished = some "moderator"

/-- `phase1_handler.is_top_level_comment` (lines 61–62). -/
def is_top_level_comment (comment : Comment) : Bool :=
  comment.parent_id = comment.link_id

/-! ### Prohibited-phrase filter (lines 64–71)

`prohibited_phrases` is the regex `\bsub\b|\bsubs\b|\bsubreddit\b|\bsubreddits\b`
with `re.IGNORECASE`, applied with `.search` to the submission title.  `\b`
separates a word character from a non-word character or the string edge; the
word characters relevant to these ASCII phrases are modelled as
`[A-Za-z0-9_]`. -/

/-- A `\w` character as the `\b` boundaries around the ASCII prohibited
phrases see it. -/
def isWordChar (c : Char) : Bool :=
  (('a' ≤ c && c ≤ 'z') || ('A' ≤ c && c ≤ 'Z') || ('0' ≤ c && c ≤ '9')
    || c = '_')

/-- Case-insensitive match of `phrase` (given lowercase) against a prefix of
`cs`; returns the remainder on success. -/
def ciPrefixDrop : List Char → List Char → Option (List Char)
  | [], cs => some cs
  | _ :: _, [] => none
  | p :: ps, c :: cs => if c.toLower = p then ciPrefixDrop ps cs else none

/-- Does `\b<phrase>\b` (case-insensitive) match exactly at the start of
`cs`, where `prev` is the character just before `cs` (none at the string
start)? -/
def wordMatchHere (phrase : List Char) (prev : Option Char)
    (cs : List Char) : Bool :=
  match ciPrefixDrop phrase cs with
  | some rest => !(prev.any isWordChar) && !(rest.head?.any isWordChar)
  | none => false

/-- Does `\b<phrase>\b` (case-insensitive) match somewhere in `cs`, where
`prev` is the character just before `cs` (none at the string start)? -/
def wordSearchFrom (phrase : List Char) : Option Char → List Char → Bool
  | prev, [] => wordMatchHere phrase prev []
  | prev, c :: cs =>
      wordMatchHere phrase prev (c :: cs) || wordSearchFrom phrase (some c) cs

/-- `phase1_handler.title_contains_prohibited_phrases` (lines 69–71). -/
def title_contains_prohibited_phrases (comment : Comment) : Bool :=
  let title := comment.submissionTitle.data
  wordSearchFrom "sub".data none title
    || wordSearchFrom "subs".data none title
    || wordSearchFrom "subreddit".data none title
    || wordSearchFrom "subreddits".data none title

example :
    title_contains_prohibited_phrases
      { body := "", distinguished := none, parent_id := "", link_id := "",
        subredditDisplayName := "", submissionTitle := "Best SUBS here" }
      = true := by decide
example :
    title_contains_prohibited_phrases
      { body := "", distinguished := none, parent_id := "", link_id := "",
        subredditDisplayName := "", submissionTitle := "subscribe today" }
      = false := by decide
example :
    title_contains_prohibited_phrases
      { body := "", distinguished := none, parent_id := "", link_id := "",
        subredditDisplayName := "", submissionTitle := "my subreddit!" }
      = true := by decide

/-- `phase1_handler.SUBREDDIT_NAME_LENGTH_LIMIT` (line 13). -/
def SUBREDDIT_NAME_LENGTH_LIMIT : Nat := 24

/-- Python `str.lower()`: lowercase the string character by character. -/
def pyLower (s : String) : String := String.mk (s.data.map Char.toLower)

/-- A side effect `handle_incoming_comment` performs. -/
inductive Effect where
  /-- `reply_to_source_equals_target_comment` (line 36). -/
  | replySourceEqualsTarget (target_subreddit : String) : Effect
  /-- `reply_to_same_content_post_comment` (line 43). -/
  | replySameContent (target_subreddit : String) (post : Submission) : Effect
  /-- `reply_to_nonexistent_target_subreddit_comment` (line 47). -/
  | replyNonexistent (target_subreddit : String) : Effect
  /-- `racb_db.add_comment` (line 54): insert a staging record. -/
  | stageComment : Effect
deriving DecidableEq, Repr

/-- Is this effect an outbound reply (as opposed to a staging insert)? -/
def Effect.isReply : Effect → Bool
  | .stageComment => false
  | _ => true

/-- `phase1_handler.handle_incoming_comment` (lines 15–54), returning the
list of side effects performed, in order, or the exception it lets
propagate. -/
def handle_incoming_comment (env : SearchEnv) (blacklist : List String)
    (comment : Comment) : Except PyError (List Effect) :=
  match check_pattern comment.body with
  | none => .ok []
  | some target_subreddit =>
  if target_subreddit.length > SUBREDDIT_NAME_LENGTH_LIMIT then .ok []
  else if is_mod_post comment then .ok []
  else if title_contains_prohibited_phrases comment then .ok []
  else
    let source_subreddit := pyLower comment.subredditDisplayName
    if pyLower target_subreddit ∈ blacklist || source_subreddit ∈ blacklist
    then .ok []
    else if pyLower target_subreddit = source_subreddit then
      .ok [.replySourceEqualsTarget target_subreddit]
    else
      match get_posts_with_same_content env with
      | .error e => .error e
      | .ok (result_obj, _) =>
        if result_obj.posts_found then
          -- `result_obj.posts[0]` (line 42)
          match result_obj.posts with
          | post :: _ => .ok [.replySameContent target_subreddit post]
          | [] => .error .indexError
        else if result_obj.unable_to_search
            && result_obj.unable_to_search_reason
                 = some "SUBREDDIT_DOES_NOT_EXIST" then
          .ok [.replyNonexistent target_subreddit]
        else if !is_top_level_comment comment then .ok []
        else .ok [.stageComment]

/-! ## Phase-2 pipeline (`phase2_handler.py`)

`run_filters` (lines 30–71) opens with

```text
class Result:
    passes_filter = False
    reason = None
    comment = None
    target_subreddit = target_subreddit
    post_with_same_content = None
```

The class body executes each time `run_filters` is called.  CPython
resolves a name that is *assigned* somewhere in a class body with
`LOAD_NAME`: the class namespace so far, then the module's globals, then
the builtins — the enclosing function's locals are never consulted for such
a name (and `run_filters`'s own `target_subreddit` is in any case not yet
assigned at that point).  `target_subreddit` is bound in none of the three
scopes, so the class-body evaluation raises `NameError` before the first
filter check.  The three scopes are embedded as explicit name lists read
off the source, and the lookup as membership. -/

/-- Names bound in the `Result` class namespace before the
`target_subreddit = target_subreddit` line runs (lines 32–34). -/
def resultClassBodyPriorNames : List String :=
  ["passes_filter", "reason", "comment"]

/-- The module-global names of `phase2_handler` at call time: its imports
(lines 4–14) and its module-level functions. -/
def phase2ModuleGlobalNames : List String :=
  ["logging", "os", "concurrent", "praw", "pytimeparse",
   "racb_db", "reddit_instantiator", "repost_detector", "phase1_handler",
   "filter_comments_from_db", "run_filters", "get_full_comment_from_reddit",
   "check_comment_availability", "process_comment_entry"]

/-- The Python builtins a bare name could still resolve to (the standard
builtin functions, types and constants; listed by category, abridged to the
plain-name builtins — none of the repository's identifiers shadow or extend
them). -/
def pythonBuiltinNames : List String :=
  ["abs", "aiter", "all", "anext", "any", "ascii", "bin", "bool",
   "breakpoint", "bytearray", "bytes", "callable", "chr", "classmethod",
   "compile", "complex", "delattr", "dict", "dir", "divmod", "enumerate",
   "eval", "exec", "filter", "float", "format", "frozenset", "getattr",
   "globals", "hasattr", "hash", "help", "hex", "id", "input", "int",
   "isinstance", "issubclass", "iter", "len", "list", "locals", "map",
   "max", "memoryview", "min", "next", "object", "oct", "open", "ord",
   "pow", "print", "property", "range", "repr", "reversed", "round",
   "set", "setattr", "slice", "sorted", "staticmethod", "str", "sum",
   "super", "tuple", "type", "vars", "zip",
   "True", "False", "None", "NotImplemented", "Ellipsis",
   "Exception", "BaseException", "NameError", "KeyError", "IndexError",
   "TypeError", "ValueError", "AttributeError", "RuntimeError",
   "StopIteration", "OSError"]

/-- CPython `LOAD_NAME` resolution inside the `Result` class body at the
`target_subreddit = target_subreddit` line: class namespace so far, then
module globals, then builtins. -/
def resolvableInResultClassBody (n : String) : Bool :=
  n ∈ resultClassBodyPriorNames || n ∈ phase2ModuleGlobalNames
    || n ∈ pythonBuiltinNames

/-- The `Result` instance `run_filters` builds (lines 31–38 and the
assignments along the checks).  The praw `comment` field is omitted: no
claim and no downstream code in `src/` reads it. -/
structure FilterResult where
  passes_filter : Bool := false
  reason : Option String := none
  target_subreddit : Option String := none
  post_with_same_content : Option Submission := none
deriving DecidableEq, Repr

/-- Environment of one `run_filters` call: the re-fetched comment's
availability (`check_comment_availability`, lines 78–87: truthy access
succeeds, or `praw.exceptions.ClientException` is raised and caught), its
score and body when available, the `COMMENT_SCORE_THRESHOLD` configuration
value, and the environment of the nested
`get_posts_with_same_content` call. -/
structure Phase2Env where
  commentAvailable : Bool
  commentScore : Int
  commentBody : String
  scoreThreshold : Int
  search : SearchEnv
deriving DecidableEq, Repr

/-- Lines 40–71 of `phase2_handler.run_filters`: the filter checks that
follow the `Result` class definition, in source order. -/
def run_filters_checks (env : Phase2Env) : Except PyError FilterResult :=
  if !env.commentAvailable then
    .ok { reason := some "COMMENT_UNAVAILABLE" }
  else if env.commentScore < env.scoreThreshold then
    .ok { reason := some "COMMENT_SCORE_TOO_LOW" }
  else
    match check_pattern env.commentBody with
    | none =>
        .ok { reason := some "TARGET_SUBREDDIT_NOT_FOUND" }
    | some target_subreddit =>
      match get_posts_with_same_content env.search with
      | .error e => .error e
      | .ok (gpwsc_result, _) =>
        if gpwsc_result.posts_found then
          match gpwsc_result.posts with
          | post :: _ =>
              .ok { reason := some "POST_WITH_SAME_CONTENT_FOUND",
                    target_subreddit := some target_subreddit,
                    post_with_same_content := some post }
          | [] => .error .indexError
        else if gpwsc_result.unable_to_search then
          .ok { reason := some ("UNABLE_TO_SEARCH_TARGET_SUBREDDIT_BECAUSE__"
                  ++ (match gpwsc_result.unable_to_search_reason with
                      | some r => r
                      | none => "None")),
                target_subreddit := some target_subreddit }
        else
          .ok { passes_filter := true,
                target_subreddit := some target_subreddit }

/-- `phase2_handler.run_filters` (lines 30–71): first the `Result` class
body is evaluated — raising `NameError` if `target_subreddit` resolves in
no scope — and only then do the checks run. -/
def run_filters (env : Phase2Env) : Except PyError FilterResult :=
  if resolvableInResultClassBody "target_subreddit" then
    run_filters_checks env
  else
    .error .nameError

/-- Python `Result() == False`: `Result` defines no `__eq__`, and
`bool.__eq__` returns `NotImplemented` for a `Result` operand, so CPython
falls back to identity — and a freshly constructed `Result` instance is
never the object `False`.  Hence the comparison is `False` for every
result value. -/
def resultEqFalse (_result : FilterResult) : Bool := false

/-- A staging-store call `process_comment_entry` can make. -/
inductive StoreAction where
  /-- `racb_db.set_comment_checked` (line 94). -/
  | setCommentChecked : StoreAction
  /-- `racb_db.delete_comment` (line 96). -/
  | deleteComment : StoreAction
deriving DecidableEq, Repr

/-- `phase2_handler.process_comment_entry` (lines 90–96): run the filters,
then `passed = result != False` decides between marking the record checked
and deleting it. -/
def process_comment_entry (env : Phase2Env) : Except PyError StoreAction :=
  match run_filters env with
  | .error e => .error e
  | .ok result =>
    let passed := !resultEqFalse result
    if passed then .ok .setCommentChecked
    else .ok .deleteComment

/-! ## Stream consumer and retry wrapper
(`RedditAutoCrosspostBot.py`, `main` lines 54–95 and
`listen_to_comment_stream` lines 98–112)

`main` runs `while True: try: listen_to_comment_stream() except ...`.
Exceptions are embedded by the classes the two handlers distinguish:
`prawcore.exceptions.ServerError`, `prawcore.exceptions.Forbidden` and
`requests.exceptions.ConnectTimeout` (the first `except` tuple);
`prawcore.exceptions.RequestException`, split by whether its
`original_exception` wraps a `urllib3` `MaxRetryError` or
`ReadTimeoutError` (lines 83–90); and every other `Exception`.  All of
these are `Exception` subclasses, so the per-event
`except Exception` inside `listen_to_comment_stream` catches any of them.

One call of `listen_to_comment_stream` is driven by a list of
`StreamItem`s: each pull of the `for` loop either delivers a comment whose
handling succeeds or raises, or the stream generator itself raises.  A
finite list models a finite prefix of the unbounded stream; exhausting it
returns normally, which in `main` simply begins the next `while` iteration
(a fresh `listen_to_comment_stream` call, hence a fresh stream handle).
Observable actions — opening a stream handle, handling an event, logging a
skipped event, the 30-second `time.sleep` — are recorded in order.
`environment.DEBUG` is the `debug` parameter (production mode is
`debug = false`). -/

/-- The exception classes `main` and `listen_to_comment_stream`
distinguish. -/
inductive ExClass where
  | serverError : ExClass
  | forbidden : ExClass
  | connectTimeout : ExClass
  /-- `prawcore.exceptions.RequestException`; the flag is line 83's
  `is_max_retry_or_read_timeout_error`. -/
  | requestException (wrapsMaxRetryOrReadTimeout : Bool) : ExClass
  /-- any other `Exception` subclass. -/
  | otherException : ExClass
deriving DecidableEq, Repr

/-- One pull of the comment stream inside `listen_to_comment_stream`. -/
inductive StreamItem where
  /-- the generator yields a comment; handling it (lines 107–108) either
  succeeds (`none`) or raises (`some e`). -/
  | event (handlerOutcome : Option ExClass) : StreamItem
  /-- the generator itself raises while producing the next comment. -/
  | streamFault (e : ExClass) : StreamItem
deriving DecidableEq, Repr

/-- An observable action of the stream loop. -/
inductive LoopAction where
  /-- a fresh stream handle is opened (lines 99–105). -/
  | openStream : LoopAction
  /-- one comment handled to completion. -/
  | handledEvent : LoopAction
  /-- `logging.exception(e)` in the per-event handler (line 110). -/
  | loggedSkip (e : ExClass) : LoopAction
  /-- `time.sleep(30)` in `main` (lines 81 and 93). -/
  | sleep30 : LoopAction
deriving DecidableEq, Repr

/-- The `for` loop of `listen_to_comment_stream` (lines 105–112): consume
stream items until a stream-level raise or the end of the modelled
prefix.  Returns the actions performed and the exception that escapes the
function, if any. -/
def consumeStream (debug : Bool) : List StreamItem →
    List LoopAction × Option ExClass
  | [] => ([], none)
  | .event none :: rest =>
      let (acts, fault) := consumeStream debug rest
      (.handledEvent :: acts, fault)
  | .event (some e) :: rest =>
      -- `except Exception`: logged; re-raised only in debug mode
      if debug then ([.loggedSkip e], some e)
      else
        let (acts, fault) := consumeStream debug rest
        (.loggedSkip e :: acts, fault)
  | .streamFault e :: _ => ([], some e)

/-- `RedditAutoCrosspostBot.listen_to_comment_stream` (lines 98–112). -/
def listen_to_comment_stream (debug : Bool) (items : List StreamItem) :
    List LoopAction × Option ExClass :=
  let (acts, fault) := consumeStream debug items
  (.openStream :: acts, fault)

/-- The exception classes of `main`'s first `except` tuple (lines 69–72). -/
def isListedTransient : ExClass → Bool
  | .serverError => true
  | .forbidden => true
  | .connectTimeout => true
  | _ => false

/-- One iteration of `main`'s `while True` body (lines 66–95): run
`listen_to_comment_stream`, then dispatch any escaped exception through
the two `except` clauses.  `some e` in the second component means the
exception terminates the loop (and, per lines 114–120, the process). -/
def mainStep (debug : Bool) (items : List StreamItem) :
    List LoopAction × Option ExClass :=
  match listen_to_comment_stream debug items with
  | (acts, none) => (acts, none)
  | (acts, some e) =>
    if isListedTransient e then
      if debug then (acts, some e) else (acts ++ [.sleep30], none)
    else
      match e with
      | .requestException true => (acts ++ [.sleep30], none)
      | e => (acts, some e)

/-- `main`'s `while True` loop over a finite prefix of behaviours, one
`StreamItem` list per `listen_to_comment_stream` call.  The loop never
exits normally; over a finite prefix it either is still running
(`none`) or has been terminated by an uncaught exception (`some e`). -/
def mainLoop (debug : Bool) : List (List StreamItem) →
    List LoopAction × Option ExClass
  | [] => ([], none)
  | items :: rest =>
    match mainStep debug items with
    | (acts, some e) => (acts, some e)
    | (acts, none) =>
      let (acts2, r) := mainLoop debug rest
      (acts ++ acts2, r)

/-! ## Spec-side search outcome vocabulary (spec §3 and §4.3)

The spec describes the duplicate search's result as a tagged
`SearchOutcome`; the code carries the same information in the `Result`
attributes of `get_posts_with_same_content`.  The abstraction map
`resultToOutcome` reads a `SearchOutcome` off a result record (`none` when
the attributes encode no outcome of the spec's data model), and
`failureClassificationSpec` is the spec's failure-classification table,
written from the (amended) claim's words, to be compared with the code. -/

/-- Spec §3: the `UNABLE` reasons of a `SearchOutcome`. -/
inductive UnableReason where
  | SUBREDDIT_DOES_NOT_EXIST : UnableReason
  | SUBREDDIT_IS_BANNED : UnableReason
  | SUBREDDIT_IS_PRIVATE : UnableReason
deriving DecidableEq, Repr

/-- Spec §3: `SearchOutcome`, the tagged result of a duplicate-content
query. -/
inductive SearchOutcome where
  | FOUND (posts : List Submission) : SearchOutcome
  | NOT_FOUND : SearchOutcome
  | UNABLE (reason : UnableReason) : SearchOutcome
deriving DecidableEq, Repr

/-- Read the spec's `SearchOutcome` off the code's result record;
`none` when the record's attributes match no outcome of the spec's data
model. -/
def resultToOutcome (g : GpwscResult) : Option SearchOutcome :=
  if g.posts_found then some (.FOUND g.posts)
  else if g.unable_to_search then
    match g.unable_to_search_reason with
    | some "SUBREDDIT_DOES_NOT_EXIST" =>
        some (.UNABLE .SUBREDDIT_DOES_NOT_EXIST)
    | some "SUBREDDIT_IS_BANNED" => some (.UNABLE .SUBREDDIT_IS_BANNED)
    | some "SUBREDDIT_IS_PRIVATE" => some (.UNABLE .SUBREDDIT_IS_PRIVATE)
    | _ => none
  else some .NOT_FOUND

/-- The failure-classification table stated by the amended claim (spec
§4.3, amended): a redirect to the generic submission page is zero results
(`NOT_FOUND`); a redirect to the subreddit-search page or a 404 response
means the target community is absent (`UNABLE(SUBREDDIT_DOES_NOT_EXIST)`),
refined to `UNABLE(SUBREDDIT_IS_BANNED)` when the response payload names
that reason — except that a payload which is valid JSON without a
`'reason'` field makes the reason lookup itself raise, uncaught; a 403
response means a private community (`UNABLE(SUBREDDIT_IS_PRIVATE)`); any
other failure propagates unhandled. -/
def failureClassificationSpec (e : SearchExn) : Except PyError SearchOutcome :=
  if e.error_message = "Redirect to /submit" then
    .ok .NOT_FOUND
  else if e.error_message = "Redirect to /subreddits/search"
      || e.error_message = "received 404 HTTP response" then
    match e.responseText with
    | .jsonNoReason => .error .keyError
    | .jsonReason r =>
        if r = "banned" then .ok (.UNABLE .SUBREDDIT_IS_BANNED)
        else .ok (.UNABLE .SUBREDDIT_DOES_NOT_EXIST)
    | _ => .ok (.UNABLE .SUBREDDIT_DOES_NOT_EXIST)
  else if e.error_message = "received 403 HTTP response" then
    .ok (.UNABLE .SUBREDDIT_IS_PRIVATE)
  else
    .error (.reraised e)

/-! # Theorems -/

/-! ## Phase-2: the `NameError` in `run_filters` and its consequences -/

/-- `target_subreddit` resolves in none of the scopes `LOAD_NAME` consults
inside the `Result` class body. -/
theorem target_subreddit_not_resolvable :
    resolvableInResultClassBody "target_subreddit" = false := by decide

/-- Every `run_filters` call raises `NameError` while evaluating the
`Result` class body, before any filter check runs. -/
theorem run_filters_raises_nameError (env : Phase2Env) :
    run_filters env = .error .nameError := by
  unfold run_filters
  rw [target_subreddit_not_resolvable]
  rfl

/-- Every `process_comment_entry` call propagates that `NameError` and
performs no staging-store call at all. -/
theorem process_comment_entry_raises_nameError (env : Phase2Env) :
    process_comment_entry env = .error .nameError := by
  unfold process_comment_entry
  rw [run_filters_raises_nameError]

/-- C10: for every comment entry, Phase-2's `process_comment_entry` never
invokes the staging-store delete operation: `run_filters` raises a
`NameError` when its `Result` class body evaluates the unbound name
`target_subreddit`, before any filter check or store access, and even for
any `Result` value `run_filters` could return, the guard
`result != False` evaluates to true, so the delete branch is
unreachable. -/
theorem c10_delete_branch_unreachable :
    (∀ env : Phase2Env, run_filters env = .error .nameError) ∧
    (∀ result : FilterResult, (!resultEqFalse result) = true) ∧
    (∀ env : Phase2Env,
        process_comment_entry env ≠ .ok .deleteComment) := by
  refine ⟨run_filters_raises_nameError, fun _ => rfl, fun env h => ?_⟩
  rw [process_comment_entry_raises_nameError] at h
  exact Except.noConfusion h

/-- C2 evaluated at the failing input: an aged record whose re-fetched
comment is unavailable (scenario 5 of the spec) is neither marked checked
nor deleted — `process_comment_entry` dies with the `NameError` from
`run_filters` — contradicting the claim that failing records are deleted
from the staging store. -/
theorem c2_failing_record_not_deleted :
    process_comment_entry
      { commentAvailable := false, commentScore := 0, commentBody := "",
        scoreThreshold := 1,
        search := { response := .ok [], fallback := [] } }
      = .error .nameError :=
  process_comment_entry_raises_nameError _

/-- C6: on an aged record whose comment has become unavailable, the checks
that follow the `Result` class definition (lines 40–71) would indeed
report the first failing reason, `COMMENT_UNAVAILABLE` — but `run_filters`
as written raises `NameError` while evaluating the class body, before any
check runs, so no reason is ever reported. -/
theorem c6_checks_unreached :
    (∀ env : Phase2Env, run_filters env = .error .nameError) ∧
    run_filters_checks
      { commentAvailable := false, commentScore := 0, commentBody := "",
        scoreThreshold := 1,
        search := { response := .ok [], fallback := [] } }
      = .ok { reason := some "COMMENT_UNAVAILABLE" } :=
  ⟨run_filters_raises_nameError, rfl⟩

/-! ## Duplicate-search failure classification (C4) and fallback
consultation (C5) -/

/-- C4 counterexample: a 404 response whose body is valid JSON without a
`'reason'` field does not yield `UNABLE(SUBREDDIT_DOES_NOT_EXIST)` as the
claim states — the `response_obj['reason']` lookup raises an uncaught
`KeyError`. -/
theorem c4_counterexample :
    get_posts_with_same_content
      { response := .exn { error_message := "received 404 HTTP response",
                           responseText := .jsonNoReason },
        fallback := [] }
      = .error .keyError := rfl

/-- C4 amended: on every raised search failure the code's classification
agrees with the spec's table, amended by the JSON-without-`'reason'` case,
and is total — every failure yields exactly one classified outcome of the
spec's data model or propagates an exception, never an unclassified value
silently treated as success. -/
theorem c4_failure_classification (e : SearchExn) (fb : List Submission) :
    (get_posts_with_same_content { response := .exn e, fallback := fb }).map
        (fun p => resultToOutcome p.1)
      = (failureClassificationSpec e).map some := by
  obtain ⟨msg, txt⟩ := e
  unfold get_posts_with_same_content failureClassificationSpec
  dsimp only
  split
  · rfl
  · split
    · cases txt with
      | empty => rfl
      | notJson => rfl
      | jsonNoReason => rfl
      | jsonReason r =>
        dsimp only
        split <;> rfl
    · split <;> rfl

/-- C5 counterexample: on the redirect-to-submit zero-result signal the
code returns the `NOT_FOUND` result immediately (line 108) — the repost
fallback detector is not consulted (second component `false`), even though
here it holds a post that consultation would have returned as `FOUND`. -/
theorem c5_counterexample :
    get_posts_with_same_content
      { response := .exn { error_message := "Redirect to /submit",
                           responseText := .empty },
        fallback := [{ permalink := "/r/sub/1" }] }
      = .ok ({}, false) := rfl

/-- C5 amended: the repost fallback detector is consulted exactly when the
live search completes without an exception and returns zero results — the
redirect-to-submit signal returns `NOT_FOUND` without consulting it — and
when consulted with a nonempty fallback result, that result is returned as
found posts. -/
theorem c5_fallback_consultation :
    (∀ (resp : SearchResponse) (fb : List Submission)
        (g : GpwscResult) (b : Bool),
      get_posts_with_same_content { response := resp, fallback := fb }
          = .ok (g, b) →
      (b = true ↔ resp = .ok [])) ∧
    (∀ fb : List Submission, fb ≠ [] →
      get_posts_with_same_content { response := .ok [], fallback := fb }
        = .ok ({ posts_found := true, posts := fb }, true)) := by
  constructor
  · intro resp fb g b h
    cases resp with
    | exn e =>
      obtain ⟨msg, txt⟩ := e
      unfold get_posts_with_same_content at h
      dsimp only at h
      have hb : b = false := by
        cases txt <;> dsimp only at h <;> repeat' split at h
        all_goals
          first
            | (simp only [Except.ok.injEq, Prod.mk.injEq] at h
               exact h.2.symm)
            | exact Except.noConfusion h
      subst hb
      exact iff_of_false Bool.false_ne_true
        (fun hc => SearchResponse.noConfusion hc)
    | ok subs =>
      unfold get_posts_with_same_content at h
      dsimp only at h
      split at h
      · rename_i hlen
        have hb : b = false := by
          simp only [Except.ok.injEq, Prod.mk.injEq] at h
          exact h.2.symm
        subst hb
        refine iff_of_false Bool.false_ne_true fun hc => ?_
        rw [SearchResponse.ok.injEq] at hc
        subst hc
        exact absurd hlen (by simp)
      · rename_i hlen
        have hsubs : subs = [] := by
          cases subs with
          | nil => rfl
          | cons a l => exact absurd (by simp : (a :: l).length > 0) hlen
        subst hsubs
        have hb : b = true := by
          by_cases hfb : fb = []
          · rw [if_neg (by simp [hfb])] at h
            simp only [Except.ok.injEq, Prod.mk.injEq] at h
            exact h.2.symm
          · rw [if_pos (by simp [hfb])] at h
            simp only [Except.ok.injEq, Prod.mk.injEq] at h
            exact h.2.symm
        subst hb
        simp
  · intro fb hfb
    unfold get_posts_with_same_content
    dsimp only
    rw [if_neg (by simp), if_pos (by simp [hfb])]

/-! ## Phase-1: side-effect discipline (C7, C8, C3) -/

/-- C7: for every incoming comment, Phase-1 performs at most one side
effect — its effect list is empty or a singleton — and when that effect is
an immediate reply (same-subreddit, same-content or nonexistent-target),
no staging record is inserted for the comment. -/
theorem c7_single_side_effect (env : SearchEnv) (blacklist : List String)
    (comment : Comment) (effs : List Effect)
    (h : handle_incoming_comment env blacklist comment = .ok effs) :
    (effs = [] ∨ ∃ e, effs = [e]) ∧
    (∀ e ∈ effs, e.isReply = true → Effect.stageComment ∉ effs) := by
  unfold handle_incoming_comment at h
  dsimp only at h
  repeat' split at h
  all_goals
    first
      | exact Except.noConfusion h
      | (simp only [Except.ok.injEq] at h
         subst h
         exact ⟨Or.inl rfl, by intro e he hr; simp at he⟩)
      | (simp only [Except.ok.injEq] at h
         subst h
         refine ⟨Or.inr ⟨_, rfl⟩, ?_⟩
         intro e he hr
         simp only [List.mem_singleton] at he
         subst he
         simp [Effect.isReply] at hr ⊢)

/-- C7 witness: a concrete top-level pattern-matching comment whose search
finds nothing; Phase-1 performs exactly the staging insert. -/
theorem c7_witness :
    (([Effect.stageComment] : List Effect) = [] ∨
      ∃ e, ([Effect.stageComment] : List Effect) = [e]) ∧
    (∀ e ∈ ([Effect.stageComment] : List Effect), e.isReply = true →
      Effect.stageComment ∉ ([Effect.stageComment] : List Effect)) :=
  c7_single_side_effect
    { response := .ok [], fallback := [] } []
    { body := "r/cats", distinguished := none, parent_id := "t3_abc",
      link_id := "t3_abc", subredditDisplayName := "pics",
      submissionTitle := "a cat picture" }
    [Effect.stageComment] (by rfl)

/-- C8: a staging insert happens only for top-level comments — whatever the
environment, if Phase-1's effects include the staging insert then the
comment is top-level, and a non-top-level comment is never staged. -/
theorem c8_staging_requires_top_level (env : SearchEnv)
    (blacklist : List String) (comment : Comment) (effs : List Effect)
    (h : handle_incoming_comment env blacklist comment = .ok effs) :
    (Effect.stageComment ∈ effs → is_top_level_comment comment = true) ∧
    (is_top_level_comment comment = false →
      Effect.stageComment ∉ effs) := by
  unfold handle_incoming_comment at h
  dsimp only at h
  repeat' split at h
  all_goals
    first
      | exact Except.noConfusion h
      | (simp only [Except.ok.injEq] at h
         subst h
         rename_i hTop
         have ht : is_top_level_comment comment = true := by
           simpa using hTop
         exact ⟨fun _ => ht,
                fun hf => by rw [ht] at hf; exact Bool.noConfusion hf⟩)
      | (simp only [Except.ok.injEq] at h
         subst h
         exact ⟨fun hs => by simp at hs, fun _ hs => by simp at hs⟩)

/-- C8 witness: a concrete non-top-level comment (parent is another
comment, not the submission) whose search finds nothing; no staging insert
happens. -/
theorem c8_witness :
    (Effect.stageComment ∈ ([] : List Effect) →
      is_top_level_comment
        { body := "r/cats", distinguished := none, parent_id := "t1_def",
          link_id := "t3_abc", subredditDisplayName := "pics",
          submissionTitle := "a cat picture" } = true) ∧
    (is_top_level_comment
        { body := "r/cats", distinguished := none, parent_id := "t1_def",
          link_id := "t3_abc", subredditDisplayName := "pics",
          submissionTitle := "a cat picture" } = false →
      Effect.stageComment ∉ ([] : List Effect)) :=
  c8_staging_requires_top_level
    { response := .ok [], fallback := [] } []
    { body := "r/cats", distinguished := none, parent_id := "t1_def",
      link_id := "t3_abc", subredditDisplayName := "pics",
      submissionTitle := "a cat picture" }
    [] (by rfl)

/-- C3 counterexample: a top-level comment whose duplicate search fails
with a 404 whose payload names the `banned` reason — the claim says Phase-1
posts the immediate nonexistent-target reply and does not stage, but the
code's only reply test compares the reason to `SUBREDDIT_DOES_NOT_EXIST`,
so the comment falls through and is staged. -/
theorem c3_counterexample :
    handle_incoming_comment
      { response := .exn { error_message := "received 404 HTTP response",
                           responseText := .jsonReason "banned" },
        fallback := [] } []
      { body := "r/foo", distinguished := none, parent_id := "t3_abc",
        link_id := "t3_abc", subredditDisplayName := "pics",
        submissionTitle := "a picture" }
      = .ok [Effect.stageComment] := rfl

/-- The search client's result on a redirect-to-search or 404 failure whose
JSON payload names the `banned` reason. -/
theorem gpwsc_banned (msg : String) (fb : List Submission)
    (hmsg : msg = "Redirect to /subreddits/search"
          ∨ msg = "received 404 HTTP response") :
    get_posts_with_same_content
      { response := .exn { error_message := msg,
                           responseText := .jsonReason "banned" },
        fallback := fb }
      = .ok ({ unable_to_search := true,
               unable_to_search_reason := some "SUBREDDIT_IS_BANNED" },
             false) := by
  unfold get_posts_with_same_content
  rcases hmsg with rfl | rfl <;> rfl

/-- C3 amended, both clauses. (1) When the duplicate search reports
`UNABLE` with reason `SUBREDDIT_DOES_NOT_EXIST` and the pipeline reaches
the search (pattern matched, every eligibility filter passed, source not
equal to target), Phase-1 performs exactly the immediate nonexistent-target
reply — in particular no staging record is inserted.  (2) Under that
search outcome no comment is ever staged, whether or not the gates pass.
(3) In the banned sub-case (`UNABLE` with reason `SUBREDDIT_IS_BANNED`) no
nonexistent-target reply is posted and the comment instead falls through
to the top-level check, staged exactly when it is top-level. -/
theorem c3_unable_reason_dispatch :
    (∀ (env : SearchEnv) (blacklist : List String) (comment : Comment)
        (target_subreddit : String) (b : Bool),
      get_posts_with_same_content env
          = .ok ({ unable_to_search := true,
                   unable_to_search_reason
                     := some "SUBREDDIT_DOES_NOT_EXIST" }, b) →
      check_pattern comment.body = some target_subreddit →
      target_subreddit.length ≤ SUBREDDIT_NAME_LENGTH_LIMIT →
      is_mod_post comment = false →
      title_contains_prohibited_phrases comment = false →
      pyLower target_subreddit ∉ blacklist →
      pyLower comment.subredditDisplayName ∉ blacklist →
      pyLower target_subreddit ≠ pyLower comment.subredditDisplayName →
      handle_incoming_comment env blacklist comment
        = .ok [Effect.replyNonexistent target_subreddit]) ∧
    (∀ (env : SearchEnv) (blacklist : List String) (comment : Comment)
        (effs : List Effect) (b : Bool),
      get_posts_with_same_content env
          = .ok ({ unable_to_search := true,
                   unable_to_search_reason
                     := some "SUBREDDIT_DOES_NOT_EXIST" }, b) →
      handle_incoming_comment env blacklist comment = .ok effs →
      Effect.stageComment ∉ effs) ∧
    (∀ (env : SearchEnv) (blacklist : List String) (comment : Comment)
        (effs : List Effect) (msg : String),
      (msg = "Redirect to /subreddits/search"
        ∨ msg = "received 404 HTTP response") →
      env.response = .exn { error_message := msg,
                            responseText := .jsonReason "banned" } →
      handle_incoming_comment env blacklist comment = .ok effs →
      (∀ t, Effect.replyNonexistent t ∉ effs) ∧
      (Effect.stageComment ∈ effs →
        is_top_level_comment comment = true)) := by
  refine ⟨?_, ?_, ?_⟩
  · intro env bl comment t b hg hpat hlen hmod htitle hbl1 hbl2 hne
    unfold handle_incoming_comment
    rw [hpat]
    dsimp only
    rw [if_neg (Nat.not_lt.mpr hlen), if_neg (by simp [hmod]),
        if_neg (by simp [htitle]), if_neg (by simp [hbl1, hbl2]),
        if_neg hne, hg]
    rfl
  · intro env bl comment effs b hg h
    unfold handle_incoming_comment at h
    dsimp only at h
    rw [hg] at h
    simp only [Bool.false_eq_true, Bool.true_and, decide_eq_true_eq,
      Option.some.injEq, if_false, if_true, reduceIte] at h
    repeat' split at h
    all_goals
      first
        | exact Except.noConfusion h
        | (simp only [Except.ok.injEq] at h
           subst h
           simp)
  · intro env bl comment effs msg hmsg hresp h
    obtain ⟨resp, fb⟩ := env
    dsimp only at hresp
    subst hresp
    have hg := gpwsc_banned msg fb hmsg
    unfold handle_incoming_comment at h
    dsimp only at h
    rw [hg] at h
    simp only [Bool.false_eq_true, Bool.true_and, decide_eq_true_eq,
      Option.some.injEq, if_false, reduceIte] at h
    repeat' split at h
    all_goals
      first
        | exact Except.noConfusion h
        | (rename_i hc
           exact absurd hc (by decide))
        | (simp only [Except.ok.injEq] at h
           subst h
           rename_i hTop
           have ht : is_top_level_comment comment = true := by
             simpa using hTop
           exact ⟨fun t hs => by simp at hs, fun _ => ht⟩)
        | (simp only [Except.ok.injEq] at h
           subst h
           exact ⟨fun t hs => by simp at hs, fun hs => by simp at hs⟩)

/-- C3 witness: a concrete eligible comment whose target draws a 404 with
an empty response body — `UNABLE(SUBREDDIT_DOES_NOT_EXIST)` — receives
exactly the immediate nonexistent-target reply via the theorem's first
clause, its hypotheses discharged at this input. -/
theorem c3_witness :
    handle_incoming_comment
      { response := .exn { error_message := "received 404 HTTP response",
                           responseText := .empty },
        fallback := [] } []
      { body := "r/foo", distinguished := none, parent_id := "t3_abc",
        link_id := "t3_abc", subredditDisplayName := "pics",
        submissionTitle := "a picture" }
      = .ok [Effect.replyNonexistent "foo"] :=
  c3_unable_reason_dispatch.1
    { response := .exn { error_message := "received 404 HTTP response",
                         responseText := .empty },
      fallback := [] } []
    { body := "r/foo", distinguished := none, parent_id := "t3_abc",
      link_id := "t3_abc", subredditDisplayName := "pics",
      submissionTitle := "a picture" }
    "foo" false rfl rfl (by decide) rfl rfl (by simp) (by simp) (by decide)

/-! ## Stream consumer and retry wrapper (C9) -/

/-- C9 counterexample: in production mode (`debug = false`) a single
unlisted exception raised by the stream generator itself — not while
handling an event — propagates through `main`'s handlers and terminates
the loop, so the stream loop does not unconditionally run forever. -/
theorem c9_counterexample :
    mainLoop false [[StreamItem.streamFault ExClass.otherException]]
      = ([LoopAction.openStream], some ExClass.otherException) := rfl

/-- In production mode, an exception that escapes one
`listen_to_comment_stream` call can only have been raised by the stream
generator itself: per-event exceptions are all caught by the
`except Exception` around the handler. -/
theorem consumeStream_fault_from_stream :
    ∀ (items : List StreamItem) (e : ExClass),
      (consumeStream false items).2 = some e →
      StreamItem.streamFault e ∈ items := by
  intro items
  induction items with
  | nil => intro e h; simp [consumeStream] at h
  | cons item rest ih =>
    intro e h
    match item with
    | .event none =>
      rcases hr : consumeStream false rest with ⟨a, f⟩
      simp only [consumeStream, hr] at h
      exact List.mem_cons_of_mem _ (ih e (by rw [hr]; exact h))
    | .event (some x) =>
      rcases hr : consumeStream false rest with ⟨a, f⟩
      simp only [consumeStream, Bool.false_eq_true, if_false, hr] at h
      exact List.mem_cons_of_mem _ (ih e (by rw [hr]; exact h))
    | .streamFault x =>
      simp only [consumeStream] at h
      obtain rfl : x = e := Option.some.injEq .. ▸ h
      exact List.mem_cons_self _ _

/-- In production mode a crash reported by one `main` iteration is neither
a listed transient fault nor a request failure wrapping
max-retries/read-timeout: those are absorbed by a 30-second sleep. -/
theorem mainStep_crash_class (items : List StreamItem)
    (acts : List LoopAction) (e : ExClass)
    (h : mainStep false items = (acts, some e)) :
    isListedTransient e = false ∧ e ≠ .requestException true := by
  unfold mainStep at h
  rcases hl : listen_to_comment_stream false items with ⟨a, f⟩
  rw [hl] at h
  cases f with
  | none => simp at h
  | some x =>
    dsimp only at h
    by_cases hx : isListedTransient x = true
    · rw [if_pos hx] at h
      simp at h
    · rw [if_neg hx] at h
      cases x with
      | serverError => exact absurd rfl hx
      | forbidden => exact absurd rfl hx
      | connectTimeout => exact absurd rfl hx
      | requestException b =>
        cases b with
        | true => simp at h
        | false =>
          simp only [Prod.mk.injEq, Option.some.injEq] at h
          obtain ⟨-, rfl⟩ := h
          exact ⟨rfl, fun hc => by cases hc⟩
      | otherException =>
        simp only [Prod.mk.injEq, Option.some.injEq] at h
        obtain ⟨-, rfl⟩ := h
        exact ⟨rfl, fun hc => by cases hc⟩

/-- C9 amended: in production mode, (1) a listed transient network fault
— or a request failure wrapping max-retries/read-timeout — escaping the
stream causes the 30-second sleep and the loop continues (resuming with a
fresh stream handle on the next iteration); (2) any exception raised while
handling a single event is logged and the event skipped, consumption
continuing with the remaining stream; (3) an escaped exception can only
come from the stream pull itself, never from event handling; and (4) the
loop is not unconditional: when it does terminate, the terminating
exception is outside the absorbed set (an unlisted exception class, or a
request failure not wrapping those transport faults). -/
theorem c9_stream_loop_behaviour :
    (∀ (items : List StreamItem) (acts : List LoopAction) (e : ExClass),
      listen_to_comment_stream false items = (acts, some e) →
      (isListedTransient e = true ∨ e = .requestException true) →
      mainStep false items = (acts ++ [.sleep30], none)) ∧
    (∀ (e : ExClass) (rest : List StreamItem),
      consumeStream false (.event (some e) :: rest)
        = (.loggedSkip e :: (consumeStream false rest).1,
           (consumeStream false rest).2)) ∧
    (∀ (items : List StreamItem) (e : ExClass),
      (consumeStream false items).2 = some e →
      StreamItem.streamFault e ∈ items) ∧
    (∀ (segs : List (List StreamItem)) (acts : List LoopAction)
        (e : ExClass),
      mainLoop false segs = (acts, some e) →
      isListedTransient e = false ∧ e ≠ .requestException true) := by
  refine ⟨?_, ?_, consumeStream_fault_from_stream, ?_⟩
  · intro items acts e hl htrans
    unfold mainStep
    rw [hl]
    dsimp only
    rcases htrans with ht | rfl
    · rw [if_pos ht]
      rfl
    · rfl
  · intro e rest
    rcases hr : consumeStream false rest with ⟨a, f⟩
    simp [consumeStream, hr]
  · intro segs
    induction segs with
    | nil => intro acts e h; simp [mainLoop] at h
    | cons items rest ih =>
      intro acts e h
      unfold mainLoop at h
      rcases hs : mainStep false items with ⟨a, c⟩
      rw [hs] at h
      cases c with
      | some x =>
        dsimp only at h
        simp only [Prod.mk.injEq, Option.some.injEq] at h
        obtain ⟨-, rfl⟩ := h
        exact mainStep_crash_class items a _ hs
      | none =>
        dsimp only at h
        rcases hm : mainLoop false rest with ⟨a2, r⟩
        rw [hm] at h
        simp only [Prod.mk.injEq] at h
        obtain ⟨-, hr⟩ := h
        subst hr
        exact ih a2 e hm

/-! ## Pattern detector characterisation (C1) -/

/-- C1 counterexample: a body with surrounding whitespace — a single
trailing newline — which the claim lists among the shapes that must yield
no match, yet `re.search`'s `$` anchor accepts it and `check_pattern`
returns the name. -/
theorem c1_counterexample : check_pattern "r/cats\n" = some "cats" := rfl

/-- A character of the subreddit-name class is never a newline. -/
theorem isSubredditNameChar_ne_newline {c : Char}
    (h : isSubredditNameChar c = true) : c ≠ '\n' := by
  intro hc
  rw [hc] at h
  exact absurd h (by decide)

/-- Stripping the trailing-newline position removes exactly one final
newline. -/
theorem stripTrailingNewline_append_newline (xs : List Char) :
    stripTrailingNewline (xs ++ ['\n']) = xs := by
  induction xs with
  | nil => rfl
  | cons x xs ih =>
    cases xs with
    | nil => rfl
    | cons y ys =>
      simp only [List.cons_append, stripTrailingNewline] at ih ⊢
      exact congrArg (List.cons x) ih

/-- A list not ending in a newline is unchanged by the trailing-newline
strip. -/
theorem stripTrailingNewline_of_getLast_ne (cs : List Char)
    (h : cs.getLast? ≠ some '\n') : stripTrailingNewline cs = cs := by
  induction cs with
  | nil => rfl
  | cons x xs ih =>
    cases xs with
    | nil =>
      simp only [List.getLast?_singleton, ne_eq, Option.some.injEq] at h
      simp [stripTrailingNewline, h]
    | cons y ys =>
      rw [List.getLast?_cons_cons] at h
      simp only [stripTrailingNewline]
      rw [ih h]

/-- Every list is its own strip, or its strip plus one final newline. -/
theorem stripTrailingNewline_self_or_newline (cs : List Char) :
    cs = stripTrailingNewline cs
      ∨ cs = stripTrailingNewline cs ++ ['\n'] := by
  induction cs with
  | nil => exact Or.inl rfl
  | cons x xs ih =>
    cases xs with
    | nil =>
      by_cases hx : x = '\n'
      · subst hx
        exact Or.inr rfl
      · simp [stripTrailingNewline, hx]
    | cons y ys =>
      simp only [stripTrailingNewline]
      rcases ih with h | h
      · exact Or.inl (by rw [← h])
      · exact Or.inr (by rw [List.cons_append, ← h])

/-- A list ending in a nonempty all-allowed suffix is unchanged by the
trailing-newline strip. -/
theorem stripTrailingNewline_of_allowed_suffix (pre nm : List Char)
    (hne : nm ≠ []) (hall : nm.all isSubredditNameChar = true) :
    stripTrailingNewline (pre ++ nm) = pre ++ nm := by
  obtain ⟨l, a, rfl⟩ := (List.eq_nil_or_concat nm).resolve_left hne
  rw [List.concat_eq_append] at hall ⊢
  have ha : isSubredditNameChar a = true :=
    (List.all_eq_true.mp hall) a
      (List.mem_append_right l (List.mem_singleton_self a))
  rw [← List.append_assoc]
  apply stripTrailingNewline_of_getLast_ne
  rw [List.getLast?_concat]
  intro hc
  exact isSubredditNameChar_ne_newline ha (Option.some.injEq .. ▸ hc)

/-- Exact-match characterisation of the anchored pattern
`(/)?r/([a-zA-Z0-9-_]+)` on a character list. -/
theorem subredditRegexExact_eq_some (cs nm : List Char) :
    subredditRegexExact cs = some nm ↔
      (nm ≠ [] ∧ nm.all isSubredditNameChar = true ∧
        (cs = 'r' :: '/' :: nm ∨ cs = '/' :: 'r' :: '/' :: nm)) := by
  constructor
  · intro h
    unfold subredditRegexExact at h
    split at h
    · split at h
      · rename_i hc
        simp only [Bool.and_eq_true, ne_eq, decide_eq_true_eq] at hc
        simp only [Option.some.injEq] at h
        subst h
        exact ⟨hc.1, hc.2, Or.inr rfl⟩
      · exact Option.noConfusion h
    · split at h
      · rename_i hc
        simp only [Bool.and_eq_true, ne_eq, decide_eq_true_eq] at hc
        simp only [Option.some.injEq] at h
        subst h
        exact ⟨hc.1, hc.2, Or.inl rfl⟩
      · exact Option.noConfusion h
    · exact Option.noConfusion h
  · rintro ⟨hne, hall, rfl | rfl⟩ <;> simp [subredditRegexExact, hne, hall]

/-- C1 amended: `check_pattern` returns `some name` exactly when the raw —
untrimmed — body is `r/<name>` or `/r/<name>`, optionally followed by one
trailing newline (the one position Python's `$` anchor tolerates), with
`<name>` nonempty over letters, digits, hyphen, underscore; every other
string, including any other surrounding whitespace, yields no match. -/
theorem c1_check_pattern_characterisation (body name : String) :
    check_pattern body = some name ↔
      (name ≠ "" ∧ name.data.all isSubredditNameChar = true ∧
        (body = "r/" ++ name ∨ body = "/r/" ++ name ∨
         body = "r/" ++ name ++ "\n" ∨ body = "/r/" ++ name ++ "\n")) := by
  have hmk : ∀ nm : List Char, (String.mk nm = name) ↔ nm = name.data := by
    intro nm
    cases name
    refine ⟨fun h => ?_, fun h => by rw [h]⟩
    injection h
  have hdata : ∀ s t : String, (s = t) ↔ s.data = t.data := by
    intro s t
    constructor
    · intro h; rw [h]
    · intro h
      cases s
      cases t
      exact congrArg String.mk h
  unfold check_pattern
  rw [Option.map_eq_some']
  constructor
  · rintro ⟨nm, hsre, hnm⟩
    rw [hmk] at hnm
    subst hnm
    obtain ⟨hne, hall, hshape⟩ := (subredditRegexExact_eq_some _ _).mp hsre
    refine ⟨by simpa [hdata] using hne, hall, ?_⟩
    rcases stripTrailingNewline_self_or_newline body.data with hb | hb
    · rcases hshape with hs | hs
      · exact Or.inl ((hdata ..).mpr (by rw [hb, hs]; simp))
      · exact Or.inr (Or.inl ((hdata ..).mpr (by rw [hb, hs]; simp)))
    · rcases hshape with hs | hs
      · refine Or.inr (Or.inr (Or.inl ((hdata ..).mpr ?_)))
        rw [hb, hs]
        simp
      · refine Or.inr (Or.inr (Or.inr ((hdata ..).mpr ?_)))
        rw [hb, hs]
        simp
  · rintro ⟨hne, hall, hshape⟩
    have hne' : name.data ≠ [] := by simpa [hdata] using hne
    refine ⟨name.data, ?_, (hmk _).mpr rfl⟩
    rw [subredditRegexExact_eq_some]
    refine ⟨hne', hall, ?_⟩
    rcases hshape with hs | hs | hs | hs <;> rw [(hdata ..).mp hs] <;>
      simp only [String.data_append]
    · left
      have := stripTrailingNewline_of_allowed_suffix ['r', '/'] name.data
        hne' hall
      simpa using this
    · right
      have := stripTrailingNewline_of_allowed_suffix ['/', 'r', '/']
        name.data hne' hall
      simpa using this
    · left
      have := stripTrailingNewline_append_newline
        (['r', '/'] ++ name.data)
      simpa using this
    · right
      have := stripTrailingNewline_append_newline
        (['/', 'r', '/'] ++ name.data)
      simpa using this

end RACB
